import Mathlib

/-!
Verification of the carbleurator bring-up sequence (src/main.rs).

The source is a single Rust file: a closed error enum `CarbleuratorError`
with a `From<gilrs::Error>` conversion, a gamepad bring-up function
`init_gamepads`, a platform-selected adapter acquisition function
`get_central` (one variant for windows/macos, one for linux), and a `main`
that runs the discovery sequence, emits signals, and enters an infinite
event relay loop.

We shallowly embed the source: external subsystem outcomes (driver
initialization, adapter listing, connect, scan start, discovered
peripherals) are inputs in an environment record; opaque boxed error
causes are modelled as strings; the observable behaviour of a run is a
trace of events (signals, milestone completions, prints, sleeps) plus an
outcome (non-zero exit or the infinite relay loop).
-/

deriving instance DecidableEq for Except

namespace Carbleurator

/-- A gamepad device as exposed by the driver: identifier, display name,
power state (rendered via Debug in the source, modelled as a string). -/
structure Gamepad where
  id : Nat
  name : String
  powerInfo : String
deriving DecidableEq, Repr

/-- A buffered gamepad event: `gilrs::Event { id, event, time }`. -/
structure GamepadEvent where
  id : Nat
  payload : String
  time : Nat
deriving DecidableEq, Repr

/-- The gamepad subsystem handle `gilrs::Gilrs`: the device set and the
buffer of pending events served by `next_event`. -/
structure Gilrs where
  gamepads : List Gamepad
  eventQueue : List GamepadEvent
deriving DecidableEq, Repr

/-- The raw gamepad-driver error `gilrs::Error`: `NotImplemented` carries a
dummy driver handle, `Other` carries an opaque boxed cause (modelled as a
string). -/
inductive GilrsError where
  | NotImplemented (dummy : Gilrs)
  | InvalidAxisToBtn
  | Other (cause : String)
deriving DecidableEq, Repr

/-- The closed error taxonomy `CarbleuratorError` from src/main.rs. -/
inductive CarbleuratorError where
  | UsbNotSupportedError
  | UsbDeviceInitializationError
  | UsbInitializationError (cause : String)
  | MissingGamepad
  | MissingBleAdapter
deriving DecidableEq, Repr

/-- `impl From<gilrs::Error> for CarbleuratorError` (src/main.rs lines
32-40): the three raw driver error kinds map to the three USB kinds, the
`Other` cause passing through unchanged. -/
def CarbleuratorError.fromGilrs : GilrsError → CarbleuratorError
  | .NotImplemented _ => .UsbNotSupportedError
  | .InvalidAxisToBtn => .UsbDeviceInitializationError
  | .Other e => .UsbInitializationError e

/-- The `#[error(...)]` Display strings of `CarbleuratorError`. -/
def CarbleuratorError.message : CarbleuratorError → String
  | .UsbNotSupportedError => "USB not supported"
  | .UsbDeviceInitializationError => "USB device initialization error"
  | .UsbInitializationError _ => "USB initialization error"
  | .MissingGamepad => "No USB gamepads found"
  | .MissingBleAdapter => "No BLE adapters found"

/-- An `anyhow::Error` as it arises in this program: either a classified
`CarbleuratorError`, an opaque compat-wrapped subsystem cause, or a
`with_context` wrapper adding a context message. -/
inductive AnyhowError where
  | carb (e : CarbleuratorError)
  | wrapped (cause : String)
  | context (msg : String) (cause : AnyhowError)
deriving DecidableEq, Repr

/-- The top-level context message of an error, when it has one. -/
def AnyhowError.contextMsg : AnyhowError → Option String
  | .context m _ => some m
  | _ => none

/-- The human-readable diagnostic anyhow prints for the error: the context
message if present, else the wrapped cause or classified message. -/
def AnyhowError.display : AnyhowError → String
  | .carb e => e.message
  | .wrapped c => c
  | .context m _ => m

/-- `init_gamepads` (src/main.rs lines 42-48): initialize the driver,
mapping a driver failure through the taxonomy; on success fail with
`MissingGamepad` if the device count is zero, else return the handle.
The driver initialization outcome is the environment input `initResult`. -/
def init_gamepads (initResult : Except GilrsError Gilrs) :
    Except AnyhowError Gilrs :=
  match initResult with
  | .error e => .error (.carb (CarbleuratorError.fromGilrs e))
  | .ok gilrs =>
    if gilrs.gamepads.length = 0 then
      .error (.carb .MissingGamepad)
    else
      .ok gilrs

/-- A discovered peripheral's properties: optional advertised local name,
always-present hardware address. -/
structure PeripheralProperties where
  local_name : Option String
  address : String
deriving DecidableEq, Repr

/-- The BLE central adapter handle as used by `main`: the outcome of a
`start_scan` request and the peripherals accumulated by the scan. -/
structure Central where
  startScanResult : Except String Unit
  peripheralList : List PeripheralProperties
deriving DecidableEq, Repr

/-- The windows/macos BLE manager: `adapters()` either fails (opaque
cause) or lists adapters that are already usable centrals. -/
structure BleManagerWinMac where
  adaptersResult : Except String (List Central)
deriving DecidableEq, Repr

/-- A linux bluez adapter before `connect`: the connect call either fails
(opaque cause) or yields a `ConnectedAdapter`. -/
structure AdapterLinux where
  connectResult : Except String Central
deriving DecidableEq, Repr

/-- The linux BLE manager: `adapters()` either fails or lists
not-yet-connected adapters. -/
structure BleManagerLinux where
  adaptersResult : Except String (List AdapterLinux)
deriving DecidableEq, Repr

/-- `get_central` for windows/macos (src/main.rs lines 50-57): list
adapters (failure compat-wrapped), take the first, fail with
`MissingBleAdapter` when the list is empty. -/
def get_central_winmac (manager : BleManagerWinMac) :
    Except AnyhowError Central :=
  match manager.adaptersResult with
  | .error e => .error (.wrapped e)
  | .ok adapters =>
    match adapters.head? with
    | none => .error (.carb .MissingBleAdapter)
    | some a => .ok a

/-- `get_central` for linux (src/main.rs lines 59-66): list adapters
(failure compat-wrapped), take the first, fail with `MissingBleAdapter`
when the list is empty, then `connect` the chosen adapter, a connect
failure surfacing as the compat-wrapped cause. -/
def get_central_linux (manager : BleManagerLinux) :
    Except AnyhowError Central :=
  match manager.adaptersResult with
  | .error e => .error (.wrapped e)
  | .ok adapters =>
    match adapters.head? with
    | none => .error (.carb .MissingBleAdapter)
    | some adapter =>
      match adapter.connectResult with
      | .error e => .error (.wrapped e)
      | .ok connected => .ok connected

/-- State-passing form of `get_central`: the source takes the manager by
shared reference (`&BleManager`) and `adapters()` takes `&self`, so the
manager state is threaded through unchanged. Parametrised over the
platform variant's manager type and body. -/
def get_central_st {M : Type} (get_central : M → Except AnyhowError Central)
    (manager : M) : Except AnyhowError Central × M :=
  (get_central manager, manager)

/-- Observable events of a run. Signal events model the three signaling
collaborator calls (`update_signal_progress/success/failure`); milestone
events mark the completion point of each bring-up operation inside `main`;
print events model the `println!` diagnostics; `sleepMs` models the
blocking sleeps. -/
inductive Event where
  | sigProgress
  | sigSuccess
  | sigFailure
  | gamepadsInit
  | printGamepad (name power : String)
  | managerConstructed
  | adapterAcquired
  | scanStarted
  | sleepMs (ms : Nat)
  | printPeripheral (name addr : String)
  | printError (msg : String)
  | relayEvent (id : Nat) (payload : String) (time : Nat)
deriving DecidableEq, Repr

/-- The environment inputs consumed by one run of `main` up to the relay
loop: the gamepad driver initialization outcome and the BLE manager
construction outcome (the manager value itself carries the adapter-listing,
connect, scan and discovery outcomes). Parametrised over the
platform-selected manager type. -/
structure Env (M : Type) where
  gamepadInit : Except GilrsError Gilrs
  managerNew : Except String M
deriving DecidableEq, Repr

/-- The bring-up portion of `main` (src/main.rs lines 68-102): the
discovery sequence from the first progress signal through the success
signal, returning the event trace together with either the propagated
error or the state handed to the event relay loop. `get_central` is the
platform-selected adapter acquisition function. -/
def bringUp {M : Type} (get_central : M → Except AnyhowError Central)
    (env : Env M) : List Event × Except AnyhowError (Gilrs × Central) :=
  let t0 := [Event.sigProgress]
  match init_gamepads env.gamepadInit with
  | .error e => (t0, .error e)
  | .ok gilrs =>
    let t1 := t0 ++ [Event.gamepadsInit] ++
      gilrs.gamepads.map (fun g => Event.printGamepad g.name g.powerInfo) ++
      [Event.sigProgress]
    match env.managerNew with
    | .error e => (t1, .error (.wrapped e))
    | .ok manager =>
      let t2 := t1 ++ [Event.managerConstructed, Event.sigProgress]
      match get_central manager with
      | .error e => (t2, .error e)
      | .ok central =>
        let t3 := t2 ++ [Event.adapterAcquired]
        match central.startScanResult with
        | .error e =>
          (t3, .error (.context "Failed to scan for new BLE peripherals"
            (.wrapped e)))
        | .ok _ =>
          let t4 := t3 ++ [Event.scanStarted, Event.sigProgress,
            Event.sleepMs 2000, Event.sigProgress] ++
            central.peripheralList.map (fun p =>
              Event.printPeripheral (p.local_name.getD "") p.address) ++
            [Event.sigSuccess]
          (t4, .ok (gilrs, central))

/-- The outcome of a process run: exit with a status code, or enter the
infinite event relay loop. -/
inductive Outcome where
  | exits (code : Nat)
  | loops
deriving DecidableEq, Repr

/-- A whole process run seen from outside: when `main` returns an error,
the Rust runtime prints the diagnostic and the process exits with status 1;
on success the relay loop runs forever. No failure signal is emitted on
the error path: `update_signal_failure` is imported but never called in
src/main.rs. -/
def processRun {M : Type} (get_central : M → Except AnyhowError Central)
    (env : Env M) : List Event × Outcome :=
  match (bringUp get_central env).2 with
  | .error e =>
    ((bringUp get_central env).1 ++ [Event.printError e.display], .exits 1)
  | .ok _ => ((bringUp get_central env).1, .loops)

/-- `gilrs.next_event()`: non-blocking poll popping the head of the event
buffer. -/
def next_event (g : Gilrs) : Option GamepadEvent × Gilrs :=
  match g.eventQueue with
  | [] => (none, g)
  | e :: rest => (some e, { g with eventQueue := rest })

/-- The relay print for one gamepad event: `println!("{:?} New event from
{}: {:?}", time, id, event)`. -/
def relayPrint (e : GamepadEvent) : Event :=
  .relayEvent e.id e.payload e.time

/-- The `while let Some(...) = gilrs.next_event()` drain over a buffer:
relays each buffered event in order until the poll returns none. -/
def drainList : List GamepadEvent → List Event
  | [] => []
  | e :: rest => relayPrint e :: drainList rest

/-- One iteration of the event relay loop (src/main.rs lines 104-109):
drain all currently-buffered events, then sleep a fixed 100 ms; events
arriving during the sleep form the next iteration's buffer. -/
def loopIter (g : Gilrs) (arrivals : List GamepadEvent) :
    List Event × Gilrs :=
  (drainList g.eventQueue ++ [Event.sleepMs 100],
   { g with eventQueue := arrivals })

/-- The top-level context message of the error a run fails with, when the
run fails and the error carries one. -/
def runErrorContextMsg {M : Type} (get_central : M → Except AnyhowError Central)
    (env : Env M) : Option String :=
  match (bringUp get_central env).2 with
  | .error e => e.contextMsg
  | .ok _ => none

/-- A linux environment where the gamepad driver reports success but zero
devices are present. -/
def envZeroGamepads : Env BleManagerLinux :=
  { gamepadInit := .ok ⟨[], []⟩,
    managerNew := .ok ⟨.ok [⟨.ok ⟨.ok (), []⟩⟩]⟩ }

/-- A fully successful linux environment: one gamepad, one adapter whose
connect succeeds, scan start succeeds, one named peripheral discovered. -/
def envSuccess : Env BleManagerLinux :=
  { gamepadInit := .ok ⟨[⟨0, "pad", "Wired"⟩], []⟩,
    managerNew :=
      .ok ⟨.ok [⟨.ok ⟨.ok (), [⟨some "head-unit", "AA:BB:CC:DD:EE:FF"⟩]⟩⟩]⟩ }

/-- A linux environment where bring-up succeeds until the scan-start
request, which fails with cause "scan refused". -/
def envScanFail : Env BleManagerLinux :=
  { gamepadInit := .ok ⟨[⟨0, "pad", "Wired"⟩], []⟩,
    managerNew := .ok ⟨.ok [⟨.ok ⟨.error "scan refused", []⟩⟩]⟩ }

/-- A fully successful linux environment in which the discovery window
yields zero peripherals. -/
def envNoPeripherals : Env BleManagerLinux :=
  { gamepadInit := .ok ⟨[⟨1, "stick", "Charging"⟩], []⟩,
    managerNew := .ok ⟨.ok [⟨.ok ⟨.ok (), []⟩⟩]⟩ }

/-- A fully successful linux environment whose single discovered
peripheral advertises no local name. -/
def envUnnamedPeripheral : Env BleManagerLinux :=
  { gamepadInit := .ok ⟨[⟨0, "pad", "Wired"⟩], []⟩,
    managerNew := .ok ⟨.ok [⟨.ok ⟨.ok (), [⟨none, "AA:BB:CC:DD:EE:FF"⟩]⟩⟩]⟩ }

/-- Counting an event in a mapped list whose image never produces that
event yields zero. -/
theorem count_map_eq_zero {α : Type} (f : α → Event) (c : Event)
    (h : ∀ a, f a ≠ c) (l : List α) : (l.map f).count c = 0 := by
  induction l with
  | nil => rfl
  | cons x xs ih =>
    simp only [List.map_cons, List.count_cons, ih, beq_iff_eq]
    simp [h x]

/-- C3: the error taxonomy maps every raw gamepad-driver error to exactly
one closed-set kind: `NotImplemented` to `UsbNotSupportedError`,
`InvalidAxisToBtn` to `UsbDeviceInitializationError`, and any other driver
error to `UsbInitializationError` wrapping the original cause unchanged;
the mapping never produces `MissingGamepad` or `MissingBleAdapter`. -/
theorem fromGilrs_taxonomy :
    (∀ d, CarbleuratorError.fromGilrs (.NotImplemented d) =
      .UsbNotSupportedError) ∧
    CarbleuratorError.fromGilrs .InvalidAxisToBtn =
      .UsbDeviceInitializationError ∧
    (∀ c, CarbleuratorError.fromGilrs (.Other c) =
      .UsbInitializationError c) ∧
    (∀ e, CarbleuratorError.fromGilrs e ≠ .MissingGamepad ∧
      CarbleuratorError.fromGilrs e ≠ .MissingBleAdapter) := by
  refine ⟨fun d => rfl, rfl, fun c => rfl, fun e => ?_⟩
  cases e <;> simp [CarbleuratorError.fromGilrs]

/-- C4: `init_gamepads` returns a gamepad set only when it is non-empty:
when driver initialization succeeds with a zero device count it fails with
`MissingGamepad`, and every successfully returned handle has at least one
device. -/
theorem init_gamepads_nonempty (r : Except GilrsError Gilrs) :
    (∀ g, r = .ok g → g.gamepads.length = 0 →
      init_gamepads r = .error (.carb .MissingGamepad)) ∧
    (∀ g, init_gamepads r = .ok g → 0 < g.gamepads.length) := by
  constructor
  · intro g hr hz
    simp [init_gamepads, hr, hz]
  · intro g hg
    cases r with
    | error e => simp [init_gamepads] at hg
    | ok g0 =>
      by_cases hz : g0.gamepads.length = 0
      · simp [init_gamepads, hz] at hg
      · simp [init_gamepads, hz] at hg
        subst hg
        omega

/-- Witness for C4 at a concrete zero-device driver result. -/
theorem init_gamepads_nonempty_witness :
    init_gamepads (.ok ⟨[], []⟩) = .error (.carb .MissingGamepad) :=
  (init_gamepads_nonempty (.ok ⟨[], []⟩)).1 ⟨[], []⟩ rfl rfl

/-- C5: on both platform variants, `get_central` fails with
`MissingBleAdapter` exactly when the listed adapter set is empty; on the
linux variant, a connect failure on a listed adapter yields the wrapped
cause, never `MissingBleAdapter`. -/
theorem get_central_missing_adapter :
    (∀ (m : BleManagerWinMac) (l : List Central),
      m.adaptersResult = .ok l →
      (get_central_winmac m = .error (.carb .MissingBleAdapter) ↔ l = [])) ∧
    (∀ (m : BleManagerLinux) (l : List AdapterLinux),
      m.adaptersResult = .ok l →
      (get_central_linux m = .error (.carb .MissingBleAdapter) ↔ l = [])) ∧
    (∀ (m : BleManagerLinux) (a : AdapterLinux) (rest : List AdapterLinux)
      (c : String),
      m.adaptersResult = .ok (a :: rest) → a.connectResult = .error c →
      get_central_linux m = .error (.wrapped c)) := by
  refine ⟨?_, ?_, ?_⟩
  · intro m l hm
    cases l with
    | nil => simp [get_central_winmac, hm]
    | cons a rest => simp [get_central_winmac, hm]
  · intro m l hm
    cases l with
    | nil => simp [get_central_linux, hm]
    | cons a rest =>
      simp only [get_central_linux, hm, List.head?]
      cases hc : a.connectResult <;> simp
  · intro m a rest c hm hc
    simp [get_central_linux, hm, hc]

/-- Witness for C5: empty adapter list on both variants, and a linux
connect failure on a listed adapter. -/
theorem get_central_missing_adapter_witness :
    get_central_winmac ⟨.ok []⟩ = .error (.carb .MissingBleAdapter) ∧
    get_central_linux ⟨.ok []⟩ = .error (.carb .MissingBleAdapter) ∧
    get_central_linux ⟨.ok [⟨.error "connect refused"⟩]⟩ =
      .error (.wrapped "connect refused") :=
  ⟨(get_central_missing_adapter.1 ⟨.ok []⟩ [] rfl).2 rfl,
   (get_central_missing_adapter.2.1 ⟨.ok []⟩ [] rfl).2 rfl,
   get_central_missing_adapter.2.2 ⟨.ok [⟨.error "connect refused"⟩]⟩
     ⟨.error "connect refused"⟩ [] "connect refused" rfl rfl⟩

/-- C10: `get_central` takes the manager by shared reference and does not
mutate it: in the state-passing form, the manager state after the call is
identical to the state before, on both platform variants and whether the
result is success or an error, and the result depends only on that
state. -/
theorem get_central_frame :
    (∀ (m : BleManagerWinMac),
      get_central_st get_central_winmac m = (get_central_winmac m, m)) ∧
    (∀ (m : BleManagerLinux),
      get_central_st get_central_linux m = (get_central_linux m, m)) :=
  ⟨fun _ => rfl, fun _ => rfl⟩

/-- A run whose bring-up fails exits with status 1. -/
theorem processRun_snd_error {M : Type}
    (get_central : M → Except AnyhowError Central) (env : Env M)
    (e : AnyhowError) (h : (bringUp get_central env).2 = .error e) :
    processRun get_central env =
      ((bringUp get_central env).1 ++ [Event.printError e.display],
       .exits 1) := by
  simp [processRun, h]

/-- A run whose bring-up succeeds hands off to the relay loop. -/
theorem processRun_snd_ok {M : Type}
    (get_central : M → Except AnyhowError Central) (env : Env M)
    (s : Gilrs × Central) (h : (bringUp get_central env).2 = .ok s) :
    processRun get_central env = ((bringUp get_central env).1, .loops) := by
  simp [processRun, h]

/-- The full event trace of a fully successful bring-up, in closed form. -/
theorem bringUp_success_trace {M : Type}
    (get_central : M → Except AnyhowError Central) (env : Env M)
    (gilrs : Gilrs) (manager : M) (central : Central)
    (h1 : init_gamepads env.gamepadInit = .ok gilrs)
    (h2 : env.managerNew = .ok manager)
    (h3 : get_central manager = .ok central)
    (h4 : central.startScanResult = .ok ()) :
    bringUp get_central env =
      ([Event.sigProgress, Event.gamepadsInit] ++
        gilrs.gamepads.map (fun g => Event.printGamepad g.name g.powerInfo) ++
        [Event.sigProgress, Event.managerConstructed, Event.sigProgress,
         Event.adapterAcquired, Event.scanStarted, Event.sigProgress,
         Event.sleepMs 2000, Event.sigProgress] ++
        central.peripheralList.map (fun p =>
          Event.printPeripheral (p.local_name.getD "") p.address) ++
        [Event.sigSuccess],
       .ok (gilrs, central)) := by
  simp [bringUp, h1, h2, h3, h4]

/-- C1: at a concrete failing bring-up (driver initialization succeeds
with zero gamepads), the program as written emits zero failure signals and
zero success signals, prints the classified diagnostic, and exits with
status 1 — `update_signal_failure` is imported but never called, so the
failure signal the spec requires is never emitted. -/
theorem failing_run_emits_no_failure_signal :
    (processRun get_central_linux envZeroGamepads).1.count
      Event.sigFailure = 0 ∧
    (processRun get_central_linux envZeroGamepads).1.count
      Event.sigSuccess = 0 ∧
    (processRun get_central_linux envZeroGamepads).2 = .exits 1 ∧
    (processRun get_central_linux envZeroGamepads).1.count
      (Event.printError "No USB gamepads found") = 1 := by
  decide

/-- C2 counterexample: on a concrete fully successful run, all five
progress signals are emitted, but three of them precede adapter
acquisition and none lies between adapter acquisition and scan start —
so no progress signal is emitted "after adapter acquisition" and before
the scan start, contradicting the claimed order (the third progress is
emitted after manager construction instead). -/
theorem no_progress_between_adapter_and_scan :
    (bringUp get_central_linux envSuccess).1.count Event.sigProgress = 5 ∧
    ((bringUp get_central_linux envSuccess).1.takeWhile
        (· != Event.adapterAcquired)).count Event.sigProgress = 3 ∧
    (((bringUp get_central_linux envSuccess).1.dropWhile
        (· != Event.adapterAcquired)).takeWhile
        (· != Event.scanStarted)).count Event.sigProgress = 0 := by
  decide

/-- C2 amended: on every fully successful run the sequencer emits exactly
one progress signal before any work, one after gamepad bring-up, one after
manager construction (before adapter acquisition), one after scan start
and one after the discovery window, then exactly one success signal and
zero failure signals. -/
theorem discovery_signal_order {M : Type}
    (get_central : M → Except AnyhowError Central) (env : Env M)
    (gilrs : Gilrs) (manager : M) (central : Central)
    (h1 : init_gamepads env.gamepadInit = .ok gilrs)
    (h2 : env.managerNew = .ok manager)
    (h3 : get_central manager = .ok central)
    (h4 : central.startScanResult = .ok ()) :
    (bringUp get_central env).1 =
      [Event.sigProgress, Event.gamepadsInit] ++
      gilrs.gamepads.map (fun g => Event.printGamepad g.name g.powerInfo) ++
      [Event.sigProgress, Event.managerConstructed, Event.sigProgress,
       Event.adapterAcquired, Event.scanStarted, Event.sigProgress,
       Event.sleepMs 2000, Event.sigProgress] ++
      central.peripheralList.map (fun p =>
        Event.printPeripheral (p.local_name.getD "") p.address) ++
      [Event.sigSuccess] ∧
    (bringUp get_central env).1.count Event.sigProgress = 5 ∧
    (bringUp get_central env).1.count Event.sigSuccess = 1 ∧
    (bringUp get_central env).1.count Event.sigFailure = 0 := by
  have htrace := bringUp_success_trace get_central env gilrs manager central
    h1 h2 h3 h4
  have ht1 : (bringUp get_central env).1 = _ := congrArg Prod.fst htrace
  have hgP := count_map_eq_zero
    (fun g : Gamepad => Event.printGamepad g.name g.powerInfo)
    Event.sigProgress (fun a h => Event.noConfusion h) gilrs.gamepads
  have hgS := count_map_eq_zero
    (fun g : Gamepad => Event.printGamepad g.name g.powerInfo)
    Event.sigSuccess (fun a h => Event.noConfusion h) gilrs.gamepads
  have hgF := count_map_eq_zero
    (fun g : Gamepad => Event.printGamepad g.name g.powerInfo)
    Event.sigFailure (fun a h => Event.noConfusion h) gilrs.gamepads
  have hpP := count_map_eq_zero
    (fun p : PeripheralProperties =>
      Event.printPeripheral (p.local_name.getD "") p.address)
    Event.sigProgress (fun a h => Event.noConfusion h) central.peripheralList
  have hpS := count_map_eq_zero
    (fun p : PeripheralProperties =>
      Event.printPeripheral (p.local_name.getD "") p.address)
    Event.sigSuccess (fun a h => Event.noConfusion h) central.peripheralList
  have hpF := count_map_eq_zero
    (fun p : PeripheralProperties =>
      Event.printPeripheral (p.local_name.getD "") p.address)
    Event.sigFailure (fun a h => Event.noConfusion h) central.peripheralList
  refine ⟨ht1, ?_, ?_, ?_⟩ <;>
    rw [ht1] <;>
    simp [List.count_append, List.count_cons, hgP, hgS, hgF, hpP, hpS, hpF]

/-- Witness for C2's amended theorem at a concrete successful linux
environment. -/
theorem discovery_signal_order_witness :
    (bringUp get_central_linux envSuccess).1.count Event.sigProgress = 5 ∧
    (bringUp get_central_linux envSuccess).1.count Event.sigSuccess = 1 ∧
    (bringUp get_central_linux envSuccess).1.count Event.sigFailure = 0 :=
  (discovery_signal_order get_central_linux envSuccess
    ⟨[⟨0, "pad", "Wired"⟩], []⟩
    ⟨.ok [⟨.ok ⟨.ok (), [⟨some "head-unit", "AA:BB:CC:DD:EE:FF"⟩]⟩⟩]⟩
    ⟨.ok (), [⟨some "head-unit", "AA:BB:CC:DD:EE:FF"⟩]⟩
    rfl rfl rfl rfl).2

/-- C6 counterexample: on a concrete run whose scan-start request fails,
the error's context message is "Failed to scan for new BLE peripherals",
not the claimed "failed to scan for new peripherals". -/
theorem scan_failure_message_counterexample :
    runErrorContextMsg get_central_linux envScanFail =
      some "Failed to scan for new BLE peripherals" ∧
    runErrorContextMsg get_central_linux envScanFail ≠
      some "failed to scan for new peripherals" := by
  decide

/-- C6 amended: when the scan-start request fails, the resulting error
wraps the underlying cause with the context message "Failed to scan for
new BLE peripherals" and the run terminates with non-zero exit status. -/
theorem scan_failure_wrapped_context {M : Type}
    (get_central : M → Except AnyhowError Central) (env : Env M)
    (gilrs : Gilrs) (manager : M) (central : Central) (c : String)
    (h1 : init_gamepads env.gamepadInit = .ok gilrs)
    (h2 : env.managerNew = .ok manager)
    (h3 : get_central manager = .ok central)
    (h4 : central.startScanResult = .error c) :
    (bringUp get_central env).2 =
      .error (.context "Failed to scan for new BLE peripherals"
        (.wrapped c)) ∧
    (processRun get_central env).2 = .exits 1 := by
  have hb : (bringUp get_central env).2 =
      .error (.context "Failed to scan for new BLE peripherals"
        (.wrapped c)) := by
    simp [bringUp, h1, h2, h3, h4]
  refine ⟨hb, ?_⟩
  rw [processRun_snd_error get_central env _ hb]

/-- Witness for C6's amended theorem at a concrete scan failure. -/
theorem scan_failure_wrapped_context_witness :
    (bringUp get_central_linux envScanFail).2 =
      .error (.context "Failed to scan for new BLE peripherals"
        (.wrapped "scan refused")) ∧
    (processRun get_central_linux envScanFail).2 = .exits 1 :=
  scan_failure_wrapped_context get_central_linux envScanFail
    ⟨[⟨0, "pad", "Wired"⟩], []⟩
    ⟨.ok [⟨.ok ⟨.error "scan refused", []⟩⟩]⟩
    ⟨.error "scan refused", []⟩ "scan refused" rfl rfl rfl rfl

/-- C7: a run in which zero peripherals were discovered still completes
bring-up: the trace ends with the success signal, contains no failure
signal, and the process hands off to the relay loop rather than exiting. -/
theorem zero_peripherals_still_success {M : Type}
    (get_central : M → Except AnyhowError Central) (env : Env M)
    (gilrs : Gilrs) (manager : M) (central : Central)
    (h1 : init_gamepads env.gamepadInit = .ok gilrs)
    (h2 : env.managerNew = .ok manager)
    (h3 : get_central manager = .ok central)
    (h4 : central.startScanResult = .ok ())
    (h5 : central.peripheralList = []) :
    (bringUp get_central env).2 = .ok (gilrs, central) ∧
    (bringUp get_central env).1.getLast? = some Event.sigSuccess ∧
    (bringUp get_central env).1.count Event.sigFailure = 0 ∧
    (processRun get_central env).2 = .loops := by
  have htrace := bringUp_success_trace get_central env gilrs manager central
    h1 h2 h3 h4
  have ht1 : (bringUp get_central env).1 = _ := congrArg Prod.fst htrace
  have ht2 : (bringUp get_central env).2 = .ok (gilrs, central) :=
    congrArg Prod.snd htrace
  have hgF := count_map_eq_zero
    (fun g : Gamepad => Event.printGamepad g.name g.powerInfo)
    Event.sigFailure (fun a h => Event.noConfusion h) gilrs.gamepads
  refine ⟨ht2, ?_, ?_, ?_⟩
  · rw [ht1, List.getLast?_append_cons]
    rfl
  · rw [ht1]
    simp [List.count_append, List.count_cons, hgF, h5]
  · rw [processRun_snd_ok get_central env _ ht2]

/-- Witness for C7 at a concrete environment with zero discovered
peripherals. -/
theorem zero_peripherals_still_success_witness :
    (bringUp get_central_linux envNoPeripherals).2 =
      .ok (⟨[⟨1, "stick", "Charging"⟩], []⟩, ⟨.ok (), []⟩) ∧
    (bringUp get_central_linux envNoPeripherals).1.getLast? =
      some Event.sigSuccess ∧
    (bringUp get_central_linux envNoPeripherals).1.count
      Event.sigFailure = 0 ∧
    (processRun get_central_linux envNoPeripherals).2 = .loops :=
  zero_peripherals_still_success get_central_linux envNoPeripherals
    ⟨[⟨1, "stick", "Charging"⟩], []⟩ ⟨.ok [⟨.ok ⟨.ok (), []⟩⟩]⟩
    ⟨.ok (), []⟩ rfl rfl rfl rfl rfl

/-- C8: enumeration renders every discovered peripheral with its optional
advertised name defaulted to the empty string and its hardware address
always present; in particular a record lacking a name is rendered with the
empty string, never a missing-value fault. -/
theorem peripheral_render_name_default {M : Type}
    (get_central : M → Except AnyhowError Central) (env : Env M)
    (gilrs : Gilrs) (manager : M) (central : Central)
    (h1 : init_gamepads env.gamepadInit = .ok gilrs)
    (h2 : env.managerNew = .ok manager)
    (h3 : get_central manager = .ok central)
    (h4 : central.startScanResult = .ok ()) :
    (∀ p ∈ central.peripheralList,
      Event.printPeripheral (p.local_name.getD "") p.address ∈
        (bringUp get_central env).1) ∧
    (∀ p ∈ central.peripheralList, p.local_name = none →
      Event.printPeripheral "" p.address ∈ (bringUp get_central env).1) := by
  have htrace := bringUp_success_trace get_central env gilrs manager central
    h1 h2 h3 h4
  have ht1 : (bringUp get_central env).1 = _ := congrArg Prod.fst htrace
  have hmem : ∀ p ∈ central.peripheralList,
      Event.printPeripheral (p.local_name.getD "") p.address ∈
        (bringUp get_central env).1 := by
    intro p hp
    rw [ht1]
    exact List.mem_append_left _ (List.mem_append_right _
      (List.mem_map_of_mem _ hp))
  refine ⟨hmem, ?_⟩
  intro p hp hname
  have := hmem p hp
  rw [hname] at this
  exact this

/-- Witness for C8 at a concrete environment whose single discovered
peripheral has no advertised name. -/
theorem peripheral_render_name_default_witness :
    Event.printPeripheral "" "AA:BB:CC:DD:EE:FF" ∈
      (bringUp get_central_linux envUnnamedPeripheral).1 :=
  (peripheral_render_name_default get_central_linux envUnnamedPeripheral
    ⟨[⟨0, "pad", "Wired"⟩], []⟩
    ⟨.ok [⟨.ok ⟨.ok (), [⟨none, "AA:BB:CC:DD:EE:FF"⟩]⟩⟩]⟩
    ⟨.ok (), [⟨none, "AA:BB:CC:DD:EE:FF"⟩]⟩
    rfl rfl rfl rfl).2 ⟨none, "AA:BB:CC:DD:EE:FF"⟩ (by simp) rfl

/-- The while-let drain over a buffer relays exactly the buffered events
in order. -/
theorem drainList_eq_map (l : List GamepadEvent) :
    drainList l = l.map relayPrint := by
  induction l with
  | nil => rfl
  | cons e rest ih => simp [drainList, ih]

/-- C9: one iteration of the event relay loop relays exactly the
currently-buffered events, in order, before the fixed 100 ms sleep; when
no new events arrive during the sleep, the next iteration relays zero
events. -/
theorem relay_loop_burst (g : Gilrs) :
    (loopIter g []).1 = g.eventQueue.map relayPrint ++ [Event.sleepMs 100] ∧
    (g.eventQueue.map relayPrint).length = g.eventQueue.length ∧
    (loopIter (loopIter g []).2 []).1 = [Event.sleepMs 100] := by
  refine ⟨?_, ?_, ?_⟩
  · simp [loopIter, drainList_eq_map]
  · simp
  · simp [loopIter, drainList]

end Carbleurator
